import Mathlib

/-!
Verification of the authentication and client-session flow of the
Luganodes staking-dashboard repository.

The repository splits into a FastAPI backend (`backend/server.py`, which
implements registration, credential verification and JWT issuing /
validation) and a React frontend (`frontend/src/pages/LoginPage.jsx`,
`frontend/src/pages/DashboardPage.jsx`, `frontend/src/App.js`).  The
backend source is not part of this tree, so its operations are modelled
from the specification; the frontend handlers are embedded directly from
the JSX sources.
-/

namespace Auth

/-- Error taxonomy of the spec (§7): `DuplicateEmail`, `InvalidCredentials`,
`TokenExpired`, `TokenInvalid`. -/
inductive AuthError where
  | DuplicateEmail
  | InvalidCredentials
  | TokenExpired
  | TokenInvalid
deriving DecidableEq, Repr

/-- Modelled from the spec: the payload a signed token embeds — "user
id/email and an absolute expiry (now + 7 days)" (§4.2); the backend
`server.py` that builds it is not under `src/`. -/
structure Payload where
  userId : Nat
  email : String
  exp : Nat
deriving DecidableEq, Repr

/-- Deterministic string hash used by the modelled signer and password
hasher. -/
def strHash (s : String) : Nat :=
  s.data.foldl (fun h c => (h * 131 + c.toNat) % 4294967296) 7

/-- Modelled from the spec: the HMAC-style signature over a token payload
with the server secret ("its signature verifies against the server
secret", §3); `server.py` is not under `src/`. -/
def sign (secret : Nat) (p : Payload) : Nat :=
  (strHash p.email * 1000003 + p.userId * 131 + p.exp * 17 + secret * 7919) % 4294967296

/-- Modelled from the spec: a session token is an "opaque signed string
encoding user identity and expiry" (§3); a raw string either parses into
a payload and signature or is malformed. -/
inductive Token where
  | wellFormed (p : Payload) (sig : Nat)
  | malformed (raw : String)
deriving DecidableEq, Repr

/-- Seconds in the 7-day token lifetime (§4.2: "expiry (now + 7 days)"). -/
def sevenDays : Nat := 7 * 24 * 60 * 60

/-- Modelled from the spec: "`validate(token)` → fails with `TokenExpired`
or `TokenInvalid` (malformed/bad signature) and otherwise returns the
embedded identity. Pure function of token + server secret + current
time" (§4.2); `server.py` is not under `src/`. -/
def validate (secret now : Nat) (t : Token) : Except AuthError Payload :=
  match t with
  | .malformed _ => .error .TokenInvalid
  | .wellFormed p sig =>
    if sig ≠ sign secret p then .error .TokenInvalid
    else if p.exp ≤ now then .error .TokenExpired
    else .ok p

/-- Modelled from the spec: the User record — "unique identifier, email
(unique), username, password hash (salted), creation timestamp" (§3);
`server.py` is not under `src/`. -/
structure User where
  id : Nat
  email : String
  username : String
  salt : Nat
  passwordHash : Nat
  createdAt : Nat
deriving DecidableEq, Repr

/-- Modelled from the spec: the salted password hash ("stores a salted
hash of the password", §4.1); `server.py` is not under `src/`. -/
def hashPassword (salt : Nat) (pw : String) : Nat :=
  (strHash pw * 2654435761 + salt * 40503 + 99991) % 4294967296

/-- Hash comparison of a login attempt against a stored user record. -/
def checkPassword (pw : String) (u : User) : Bool :=
  hashPassword u.salt pw == u.passwordHash

/-- The credential store: the list of persisted user records. -/
abbrev Store := List User

/-- Does a record with this email already exist in the store? -/
def emailExists (store : Store) (email : String) : Bool :=
  store.any (fun u => u.email == email)

/-- Modelled from the spec: "`register(email, username, password)` → fails
with `DuplicateEmail` if email exists; otherwise stores a salted hash of
the password ... and returns a new User" (§4.1); `server.py` is not under
`src/`.  The fresh id, per-user salt and creation time are passed in. -/
def register (store : Store) (email username password : String)
    (freshId salt now : Nat) : Except AuthError (User × Store) :=
  if emailExists store email then .error .DuplicateEmail
  else
    let u : User := ⟨freshId, email, username, salt, hashPassword salt password, now⟩
    .ok (u, u :: store)

/-- First stored record matching an email. -/
def findByEmail (store : Store) (email : String) : Option User :=
  store.find? (fun u => u.email == email)

/-- Modelled from the spec: "`verify(email, password)` → fails with
`InvalidCredentials` if no user matches email or hash comparison fails;
otherwise returns the User" (§4.1); `server.py` is not under `src/`. -/
def verify (store : Store) (email password : String) : Except AuthError User :=
  match findByEmail store email with
  | none => .error .InvalidCredentials
  | some u => if checkPassword password u then .ok u else .error .InvalidCredentials

/-- Modelled from the spec: "`issue(user)` → produces a signed token
embedding user id/email and an absolute expiry (now + 7 days)" (§4.2);
`server.py` is not under `src/`. -/
def issue (secret now : Nat) (u : User) : Token :=
  let p : Payload := ⟨u.id, u.email, now + sevenDays⟩
  .wellFormed p (sign secret p)

/-- Stateful wrapper of `validate` against the server's only cross-request
state, the credential store: validation reads no state and writes none
("validation is a pure read", §5). -/
def validateS (secret now : Nat) (st : Store) (t : Token) :
    Except AuthError Payload × Store :=
  (validate secret now t, st)

/-- Spec invariant (§3): "exactly one User record per email". -/
def uniqueEmails (store : Store) : Prop :=
  (store.map User.email).Nodup

end Auth

namespace Client

/-- Browser-local storage, as the key/value map the Web Storage API
exposes (`localStorage` in both JSX pages). -/
abbrev Storage := List (String × String)

/-- `localStorage.getItem(k)`. -/
def getItem (st : Storage) (k : String) : Option String :=
  (st.find? (fun e => e.1 == k)).map (fun e => e.2)

/-- `localStorage.setItem(k, v)`: the key now maps to `v`. -/
def setItem (st : Storage) (k v : String) : Storage :=
  (k, v) :: st.filter (fun e => !(e.1 == k))

/-- `localStorage.removeItem(k)`. -/
def removeItem (st : Storage) (k : String) : Storage :=
  st.filter (fun e => !(e.1 == k))

/-- The two routes of `App.js`: `/` (login) and `/dashboard`. -/
inductive Route where
  | login
  | dashboard
deriving DecidableEq, Repr

/-- JavaScript truthiness of `localStorage.getItem(k)`: `null` and the
empty string are falsy. -/
def jsFalsy (o : Option String) : Bool :=
  match o with
  | none => true
  | some s => s == ""

/-- JavaScript `a || b` on strings: `a` unless `a` is falsy (empty). -/
def jsOr (a b : String) : String :=
  if a == "" then b else a

/-- Body of a successful `/auth/login` or `/auth/signup` response
(`{success, token, username}` or `{success:false, error}`), as read by
`LoginPage.handleSubmit`. -/
structure AuthResponse where
  success : Bool
  token : String
  username : String
  error : Option String
deriving DecidableEq, Repr

/-- The axios rejection `LoginPage.handleSubmit` catches: an optional
`err.response.data.error` payload and the always-present `err.message`. -/
structure AxiosErr where
  dataError : Option String
  message : String
deriving DecidableEq, Repr

/-- The component state of `LoginPage.jsx` that `handleSubmit` touches,
together with the browser storage and the router location. -/
structure LoginState where
  storage : Storage
  route : Route
  errorMsg : String
  loading : Bool
deriving DecidableEq, Repr

/-- `LoginPage.handleSubmit` (LoginPage.jsx lines 25–50), applied to the
outcome of the `axios.post`: on `{success:true}` it stores `token` and
`username` in local storage and navigates to `/dashboard`; on
`{success:false}` or a rejected request it sets the inline error text. -/
def handleSubmit (s : LoginState) (result : Except AxiosErr AuthResponse) :
    LoginState :=
  let s0 : LoginState := { s with errorMsg := "", loading := true }
  match result with
  | .ok resp =>
    if resp.success then
      { s0 with
          storage := setItem (setItem s0.storage "token" resp.token)
            "username" resp.username
          route := .dashboard
          loading := false }
    else
      { s0 with
          errorMsg := jsOr (resp.error.getD "") "Authentication failed"
          loading := false }
  | .error err =>
      { s0 with
          errorMsg := jsOr (err.dataError.getD "") (jsOr err.message "An error occurred")
          loading := false }

/-- `LoginPage.jsx` renders its inline alert exactly when the `error`
state is truthy (`{error && <Alert ...>}`, line 73). -/
def loginShowsInlineError (s : LoginState) : Bool :=
  !(s.errorMsg == "")

/-- A staked asset as returned by `/api/staking/assets` and rendered by
`DashboardPage.jsx`. -/
structure Asset where
  id : Nat
  asset_name : String
  asset_symbol : String
  amount_staked : Int
  current_value : Int
  apy : Int
  rewards_earned : Int
  logo_url : String
deriving DecidableEq, Repr

/-- The component state of `DashboardPage.jsx` that `fetchDashboardData`,
`handleLogout` and the asset filter touch, together with browser storage
and router location. -/
structure DashState where
  storage : Storage
  route : Route
  loading : Bool
  overview : Option String
  assets : List Asset
  rewardsHistory : List String
  performance : List String
  dateRange : List Nat
  selectedAssets : List String
deriving DecidableEq, Repr

/-- The payload of the four successful staking fetches in
`fetchDashboardData`. -/
structure FetchOk where
  overview : String
  assets : List Asset
  rewards : List String
  perf : List String
deriving DecidableEq, Repr

/-- The axios rejection `fetchDashboardData` catches:
`error.response?.status` is `none` when the request never got a
response. -/
structure FetchErr where
  status : Option Nat
deriving DecidableEq, Repr

/-- `DashboardPage.fetchDashboardData` (DashboardPage.jsx lines 60–84),
applied to the outcome of the four staking requests: on success it stores
the four payloads and clears `loading`; on a 401 rejection it removes the
`token` key and navigates to `/`; any other rejection is only logged to
the console and leaves the state unchanged. -/
def fetchDashboardData (s : DashState) (result : Except FetchErr FetchOk) :
    DashState :=
  match result with
  | .ok r =>
    { s with
        overview := some r.overview
        assets := r.assets
        rewardsHistory := r.rewards
        performance := r.perf
        loading := false }
  | .error e =>
    if e.status == some 401 then
      { s with storage := removeItem s.storage "token", route := .login }
    else s

/-- The `Authorization` header value `fetchDashboardData` attaches:
`` `Bearer ${token}` `` with `token = localStorage.getItem('token')`
(DashboardPage.jsx lines 62–63); a `null` item stringifies to "null". -/
def bearerHeader (st : Storage) : String :=
  "Bearer " ++ (getItem st "token").getD "null"

/-- What the dashboard's mount effect does next. -/
inductive MountAction where
  | redirectLogin
  | fetch (authHeader : String)
deriving DecidableEq, Repr

/-- The `useEffect` of `DashboardPage.jsx` (lines 51–58): with a falsy
stored token it navigates to `/` and returns before any request;
otherwise it runs `fetchDashboardData`, whose requests carry the bearer
header. -/
def dashboardMount (st : Storage) : MountAction :=
  if jsFalsy (getItem st "token") then .redirectLogin
  else .fetch (bearerHeader st)

/-- `DashboardPage.handleLogout` (DashboardPage.jsx lines 86–90): removes
both the `token` and `username` keys and navigates to `/`. -/
def handleLogout (s : DashState) : DashState :=
  { s with
      storage := removeItem (removeItem s.storage "token") "username"
      route := .login }

/-- `DashboardPage.filteredAssets` (DashboardPage.jsx lines 92–94): filter
the asset list by the selected symbols, or pass it through when none are
selected. -/
def filteredAssets (selectedAssets : List String) (assets : List Asset) :
    List Asset :=
  if selectedAssets.length > 0 then
    assets.filter (fun asset => selectedAssets.contains asset.asset_symbol)
  else assets

/-- The two shapes `DashboardPage.jsx` can render: the loading screen
(lines 96–102) or the dashboard content (lines 104–380).  The page has no
error element. -/
inductive DashView where
  | loadingScreen
  | content
deriving DecidableEq, Repr

/-- The top-level render branch of `DashboardPage.jsx`. -/
def dashRender (s : DashState) : DashView :=
  if s.loading then .loadingScreen else .content

/-- Whether a dashboard render displays an inline error: neither branch of
the page contains one. -/
def dashShowsInlineError (v : DashView) : Bool :=
  match v with
  | .loadingScreen => false
  | .content => false

/-- A concrete dashboard state used to evaluate the handlers: logged-in
session with both keys present, page still loading. -/
def sampleDashState : DashState :=
  ⟨[("token", "t0"), ("username", "alice")], .dashboard, true, none, [], [], [], [30], []⟩

/-- A concrete staked asset (Ethereum). -/
def assetETH : Asset :=
  ⟨1, "Ethereum", "ETH", 120, 3000, 5, 42, "https://img/eth"⟩

/-- A concrete staked asset (Polkadot). -/
def assetDOT : Asset :=
  ⟨2, "Polkadot", "DOT", 300, 7, 12, 9, "https://img/dot"⟩

end Client

section StorageLemmas

open Client

/-- `find?` by one key is unaffected by filtering out a different key. -/
theorem find?_filter_ne_key (st : Storage) (k1 k2 : String) (h : k1 ≠ k2) :
    (st.filter (fun e => !(e.1 == k1))).find? (fun e => e.1 == k2)
      = st.find? (fun e => e.1 == k2) := by
  induction st with
  | nil => rfl
  | cons a t ih =>
    by_cases h1 : a.1 = k1
    · have hb1 : (a.1 == k1) = true := by simp [h1]
      have hb2 : (a.1 == k2) = false := by simp [h1, h]
      simp [List.filter_cons, hb1, List.find?, hb2, ih]
    · have hb1 : (a.1 == k1) = false := by simp [h1]
      by_cases h2 : a.1 = k2
      · have hb2 : (a.1 == k2) = true := by simp [h2]
        simp [List.filter_cons, hb1, List.find?, hb2]
      · have hb2 : (a.1 == k2) = false := by simp [h2]
        simp [List.filter_cons, hb1, List.find?, hb2, ih]

/-- Reading back the key just written. -/
theorem getItem_setItem_same (st : Storage) (k v : String) :
    getItem (setItem st k v) k = some v := by
  simp [getItem, setItem, List.find?]

/-- Writing one key leaves every other key unchanged. -/
theorem getItem_setItem_ne (st : Storage) (k1 k2 v : String) (h : k1 ≠ k2) :
    getItem (setItem st k1 v) k2 = getItem st k2 := by
  have hb : (k1 == k2) = false := by simp [h]
  simp [getItem, setItem, List.find?, hb, find?_filter_ne_key st k1 k2 h]

/-- A removed key is gone. -/
theorem getItem_removeItem_same (st : Storage) (k : String) :
    getItem (removeItem st k) k = none := by
  simp only [getItem, removeItem, Option.map_eq_none', List.find?_eq_none]
  intro e he
  have := (List.mem_filter.mp he).2
  simpa using this

/-- Removing one key leaves every other key unchanged. -/
theorem getItem_removeItem_ne (st : Storage) (k1 k2 : String) (h : k1 ≠ k2) :
    getItem (removeItem st k1) k2 = getItem st k2 := by
  simp [getItem, removeItem, find?_filter_ne_key st k1 k2 h]

/-- A `jsOr` chain ending in non-empty text is non-empty. -/
theorem jsOr_ne_empty (a b : String) (hb : b ≠ "") : jsOr a b ≠ "" := by
  by_cases h : a = ""
  · simpa [jsOr, h] using hb
  · simp [jsOr, h]

end StorageLemmas

/-- C1: `validate` succeeds, returning the embedded identity, exactly on a
well-formed token whose signature matches the server secret and whose
expiry has not elapsed; a well-signed token whose expiry is in the past
fails with `TokenExpired`; a malformed token or one whose signature does
not match fails with `TokenInvalid`. -/
theorem validate_accepts_exactly_signed_unexpired (secret now : Nat) :
    (∀ t p, Auth.validate secret now t = .ok p ↔
      t = .wellFormed p (Auth.sign secret p) ∧ now < p.exp) ∧
    (∀ p : Auth.Payload, p.exp ≤ now →
      Auth.validate secret now (.wellFormed p (Auth.sign secret p))
        = .error .TokenExpired) ∧
    (∀ raw, Auth.validate secret now (.malformed raw) = .error .TokenInvalid) ∧
    (∀ p sig, sig ≠ Auth.sign secret p →
      Auth.validate secret now (.wellFormed p sig) = .error .TokenInvalid) := by
  refine ⟨?_, ?_, ?_, ?_⟩
  · intro t p
    constructor
    · intro h
      cases t with
      | malformed raw => simp [Auth.validate] at h
      | wellFormed q sig =>
        by_cases hs : sig = Auth.sign secret q
        · by_cases he : q.exp ≤ now
          · simp [Auth.validate, hs, he] at h
          · simp [Auth.validate, hs, he] at h
            subst h
            exact ⟨by rw [hs], by omega⟩
        · simp [Auth.validate, hs] at h
    · rintro ⟨rfl, hlt⟩
      simp [Auth.validate]
      omega
  · intro p he
    simp [Auth.validate, he]
  · intro raw
    simp [Auth.validate]
  · intro p sig hs
    simp [Auth.validate, hs]

/-- Witness for C1 at concrete tokens: a fresh well-signed token is
accepted with its identity, the same token after expiry fails with
`TokenExpired`, and a malformed token fails with `TokenInvalid`. -/
theorem validate_accepts_exactly_signed_unexpired_wit :
    Auth.validate 5 0
        (.wellFormed ⟨1, "a@x.com", 10⟩ (Auth.sign 5 ⟨1, "a@x.com", 10⟩))
      = .ok ⟨1, "a@x.com", 10⟩ ∧
    Auth.validate 5 20
        (.wellFormed ⟨1, "a@x.com", 10⟩ (Auth.sign 5 ⟨1, "a@x.com", 10⟩))
      = .error .TokenExpired ∧
    Auth.validate 5 0 (.malformed "junk") = .error .TokenInvalid :=
  ⟨((validate_accepts_exactly_signed_unexpired 5 0).1 _ _).mpr ⟨rfl, by decide⟩,
   (validate_accepts_exactly_signed_unexpired 5 20).2.1 _ (by decide),
   (validate_accepts_exactly_signed_unexpired 5 0).2.2.1 "junk"⟩

/-- C2: `register` fails with `DuplicateEmail` exactly when a record with
the email already exists (so it never overwrites); otherwise it returns a
new user carrying the salted password hash, prepended to the store, and
the one-record-per-email invariant is preserved. -/
theorem register_duplicate_email_and_invariant (store : Auth.Store)
    (email username password : String) (freshId salt now : Nat) :
    (Auth.register store email username password freshId salt now
        = .error .DuplicateEmail ↔ ∃ u ∈ store, u.email = email) ∧
    ((¬ ∃ u ∈ store, u.email = email) →
      ∃ u st', Auth.register store email username password freshId salt now
          = .ok (u, st') ∧
        u.email = email ∧ u.username = username ∧
        u.passwordHash = Auth.hashPassword salt password ∧ u.salt = salt ∧
        st' = u :: store ∧
        (Auth.uniqueEmails store → Auth.uniqueEmails st')) := by
  have hex : Auth.emailExists store email = true ↔ ∃ u ∈ store, u.email = email := by
    simp [Auth.emailExists, List.any_eq_true]
  constructor
  · constructor
    · intro h
      by_cases hd : Auth.emailExists store email
      · exact hex.mp hd
      · simp [Auth.register, hd] at h
    · intro h
      simp [Auth.register, hex.mpr h]
  · intro h
    have hd : Auth.emailExists store email = false := by
      by_cases hb : Auth.emailExists store email
      · exact absurd (hex.mp hb) h
      · simpa using hb
    refine ⟨⟨freshId, email, username, salt, Auth.hashPassword salt password, now⟩,
      ⟨freshId, email, username, salt, Auth.hashPassword salt password, now⟩ :: store,
      by simp [Auth.register, hd], rfl, rfl, rfl, rfl, rfl, ?_⟩
    intro hu
    simp only [Auth.uniqueEmails, List.map_cons, List.nodup_cons]
    refine ⟨?_, hu⟩
    simp only [List.mem_map, not_exists]
    rintro u ⟨hmem, heq⟩
    exact h ⟨u, hmem, heq⟩

/-- Witness for C2: registering into an empty store succeeds with the
hashed password and a singleton store; a second registration with the
same email fails with `DuplicateEmail`. -/
theorem register_duplicate_email_and_invariant_wit :
    (¬ ∃ u ∈ ([] : Auth.Store), u.email = "a@x.com") ∧
    (∃ u st', Auth.register [] "a@x.com" "a" "pw123456" 1 99 1000 = .ok (u, st') ∧
      u.email = "a@x.com" ∧ u.username = "a" ∧
      u.passwordHash = Auth.hashPassword 99 "pw123456" ∧ u.salt = 99 ∧
      st' = u :: [] ∧ (Auth.uniqueEmails [] → Auth.uniqueEmails st')) ∧
    (∃ u ∈ [(⟨1, "a@x.com", "a", 99, Auth.hashPassword 99 "pw123456", 1000⟩ : Auth.User)],
        u.email = "a@x.com") ∧
    Auth.register [⟨1, "a@x.com", "a", 99, Auth.hashPassword 99 "pw123456", 1000⟩]
        "a@x.com" "b" "other" 2 7 2000 = .error .DuplicateEmail :=
  ⟨by simp,
   (register_duplicate_email_and_invariant [] "a@x.com" "a" "pw123456" 1 99 1000).2
     (by simp),
   ⟨⟨1, "a@x.com", "a", 99, Auth.hashPassword 99 "pw123456", 1000⟩, by simp, rfl⟩,
   (register_duplicate_email_and_invariant
       [⟨1, "a@x.com", "a", 99, Auth.hashPassword 99 "pw123456", 1000⟩]
       "a@x.com" "b" "other" 2 7 2000).1.mpr
     ⟨⟨1, "a@x.com", "a", 99, Auth.hashPassword 99 "pw123456", 1000⟩, by simp, rfl⟩⟩

/-- C3: `verify` fails with `InvalidCredentials` exactly when no record
matches the email or the hash comparison fails; a matching record with a
passing hash comparison is returned; and any token `issue`d for a user
is accepted by `validate` before its expiry, yielding that user's
identity. -/
theorem verify_and_issue_validate_roundtrip (store : Auth.Store)
    (email password : String) (secret now tnow : Nat) :
    (Auth.verify store email password = .error .InvalidCredentials ↔
      (Auth.findByEmail store email = none ∨
       ∃ u, Auth.findByEmail store email = some u ∧
         Auth.checkPassword password u = false)) ∧
    (∀ u, Auth.findByEmail store email = some u →
      Auth.checkPassword password u = true →
      Auth.verify store email password = .ok u) ∧
    (∀ u : Auth.User, tnow < now + Auth.sevenDays →
      Auth.validate secret tnow (Auth.issue secret now u)
        = .ok ⟨u.id, u.email, now + Auth.sevenDays⟩) := by
  refine ⟨?_, ?_, ?_⟩
  · constructor
    · intro h
      cases hf : Auth.findByEmail store email with
      | none => exact Or.inl rfl
      | some u =>
        by_cases hc : Auth.checkPassword password u
        · simp [Auth.verify, hf, hc] at h
        · exact Or.inr ⟨u, rfl, by simpa using hc⟩
    · rintro (hf | ⟨u, hf, hc⟩)
      · simp [Auth.verify, hf]
      · simp [Auth.verify, hf, hc]
  · intro u hf hc
    simp [Auth.verify, hf, hc]
  · intro u hlt
    have : ¬ (now + Auth.sevenDays ≤ tnow) := by omega
    simp [Auth.issue, Auth.validate, this]

/-- Witness for C3 at a concrete one-user store: the right password
verifies to the stored user, an InvalidCredentials outcome holds for an
unknown email, and the issued token round-trips through `validate`. -/
theorem verify_and_issue_validate_roundtrip_wit :
    Auth.verify [⟨1, "a@x.com", "a", 99, Auth.hashPassword 99 "pw123456", 1000⟩]
        "a@x.com" "pw123456"
      = .ok ⟨1, "a@x.com", "a", 99, Auth.hashPassword 99 "pw123456", 1000⟩ ∧
    Auth.verify [⟨1, "a@x.com", "a", 99, Auth.hashPassword 99 "pw123456", 1000⟩]
        "b@x.com" "pw123456" = .error .InvalidCredentials ∧
    Auth.validate 5 2000
        (Auth.issue 5 1000 ⟨1, "a@x.com", "a", 99, Auth.hashPassword 99 "pw123456", 1000⟩)
      = .ok ⟨1, "a@x.com", 1000 + Auth.sevenDays⟩ :=
  ⟨(verify_and_issue_validate_roundtrip _ "a@x.com" "pw123456" 5 1000 2000).2.1 _
     (by simp [Auth.findByEmail]) (by simp [Auth.checkPassword]),
   (verify_and_issue_validate_roundtrip _ "b@x.com" "pw123456" 5 1000 2000).1.mpr
     (Or.inl (by simp [Auth.findByEmail])),
   (verify_and_issue_validate_roundtrip [] "" "" 5 1000 2000).2.2 _
     (by simp [Auth.sevenDays])⟩

/-- C4: validation is a pure read of the credential store: it leaves the
store unchanged, a second call on the same token against the resulting
store returns the same result, and in particular a successful (unexpired)
validation yields the same identity both times. -/
theorem validate_pure_and_deterministic (secret now : Nat) (st : Auth.Store)
    (t : Auth.Token) :
    (Auth.validateS secret now st t).2 = st ∧
    (Auth.validateS secret now (Auth.validateS secret now st t).2 t).1
      = (Auth.validateS secret now st t).1 ∧
    (∀ p, (Auth.validateS secret now st t).1 = .ok p →
      (Auth.validateS secret now (Auth.validateS secret now st t).2 t).1 = .ok p) :=
  ⟨rfl, rfl, fun _ h => h⟩

/-- Witness for C4 at a concrete unexpired token: both calls return the
same identity and the store is untouched. -/
theorem validate_pure_and_deterministic_wit :
    (Auth.validateS 5 0 []
        (.wellFormed ⟨1, "a@x.com", 10⟩ (Auth.sign 5 ⟨1, "a@x.com", 10⟩))).1
      = .ok ⟨1, "a@x.com", 10⟩ ∧
    (Auth.validateS 5 0
        (Auth.validateS 5 0 []
          (.wellFormed ⟨1, "a@x.com", 10⟩ (Auth.sign 5 ⟨1, "a@x.com", 10⟩))).2
        (.wellFormed ⟨1, "a@x.com", 10⟩ (Auth.sign 5 ⟨1, "a@x.com", 10⟩))).1
      = .ok ⟨1, "a@x.com", 10⟩ :=
  ⟨by simp [Auth.validateS, Auth.validate],
   (validate_pure_and_deterministic 5 0 []
       (.wellFormed ⟨1, "a@x.com", 10⟩ (Auth.sign 5 ⟨1, "a@x.com", 10⟩))).2.2
     ⟨1, "a@x.com", 10⟩ (by simp [Auth.validateS, Auth.validate])⟩

/-- C5: on a `{success:true}` authentication response the login handler
stores the returned token and username in browser-local storage and
navigates to the dashboard; the dashboard then attaches
`Authorization: Bearer <stored token>` to its protected requests. -/
theorem login_success_stores_token_and_attaches_header (s : Client.LoginState)
    (resp : Client.AuthResponse) (h : resp.success = true) :
    Client.getItem (Client.handleSubmit s (.ok resp)).storage "token"
      = some resp.token ∧
    Client.getItem (Client.handleSubmit s (.ok resp)).storage "username"
      = some resp.username ∧
    (Client.handleSubmit s (.ok resp)).route = .dashboard ∧
    Client.bearerHeader (Client.handleSubmit s (.ok resp)).storage
      = "Bearer " ++ resp.token ∧
    (∀ hdr, Client.dashboardMount (Client.handleSubmit s (.ok resp)).storage
        = .fetch hdr → hdr = "Bearer " ++ resp.token) := by
  have hst : (Client.handleSubmit s (.ok resp)).storage
      = Client.setItem (Client.setItem s.storage "token" resp.token)
          "username" resp.username := by
    simp [Client.handleSubmit, h]
  have htok : Client.getItem (Client.handleSubmit s (.ok resp)).storage "token"
      = some resp.token := by
    rw [hst, getItem_setItem_ne _ _ _ _ (by decide), getItem_setItem_same]
  refine ⟨htok, ?_, ?_, ?_, ?_⟩
  · rw [hst, getItem_setItem_same]
  · simp [Client.handleSubmit, h]
  · simp [Client.bearerHeader, htok]
  · intro hdr hm
    by_cases he : resp.token = ""
    · simp [Client.dashboardMount, Client.jsFalsy, htok, he] at hm
    · simp [Client.dashboardMount, Client.jsFalsy, htok, he,
        Client.bearerHeader] at hm
      exact hm.symm

/-- Witness for C5 at a concrete successful login response. -/
theorem login_success_stores_token_and_attaches_header_wit :
    Client.getItem
        (Client.handleSubmit ⟨[], .login, "", false⟩
          (.ok ⟨true, "tok1", "alice", none⟩)).storage "token" = some "tok1" ∧
    Client.bearerHeader
        (Client.handleSubmit ⟨[], .login, "", false⟩
          (.ok ⟨true, "tok1", "alice", none⟩)).storage = "Bearer " ++ "tok1" :=
  ⟨(login_success_stores_token_and_attaches_header ⟨[], .login, "", false⟩
      ⟨true, "tok1", "alice", none⟩ rfl).1,
   (login_success_stores_token_and_attaches_header ⟨[], .login, "", false⟩
      ⟨true, "tok1", "alice", none⟩ rfl).2.2.2.1⟩

/-- C6: a 401 response to the dashboard's protected requests clears the
stored token and redirects to the login page. -/
theorem http401_clears_token_and_redirects (s : Client.DashState)
    (e : Client.FetchErr) (h : e.status = some 401) :
    Client.getItem (Client.fetchDashboardData s (.error e)).storage "token"
      = none ∧
    (Client.fetchDashboardData s (.error e)).route = .login := by
  have hb : (e.status == some 401) = true := by simp [h]
  constructor
  · simp [Client.fetchDashboardData, hb, getItem_removeItem_same]
  · simp [Client.fetchDashboardData, hb]

/-- Witness for C6 at a concrete 401 rejection of a logged-in session. -/
theorem http401_clears_token_and_redirects_wit :
    Client.getItem
        (Client.fetchDashboardData Client.sampleDashState
          (.error ⟨some 401⟩)).storage "token" = none ∧
    (Client.fetchDashboardData Client.sampleDashState (.error ⟨some 401⟩)).route
      = .login :=
  http401_clears_token_and_redirects Client.sampleDashState ⟨some 401⟩ rfl

/-- C7 counterexample: a non-401 dashboard fetch failure (HTTP 500) on a
logged-in session displays no inline error — the page has no error
element and stays on its loading screen — contradicting the claim that
every non-401 failure is displayed inline. -/
theorem non401_dash_failure_shows_no_inline_error_cex :
    ¬ (Client.dashShowsInlineError (Client.dashRender
        (Client.fetchDashboardData Client.sampleDashState (.error ⟨some 500⟩)))
      = true) := by
  decide

/-- C7 amended: on a non-401 failure the stored token is kept and no
redirect occurs; login/signup failures are displayed inline, but a
non-401 dashboard fetch failure leaves the dashboard state entirely
unchanged and is only logged to the console — the dashboard page renders
no inline error in any state. -/
theorem non401_failures_keep_session (s : Client.DashState)
    (e : Client.FetchErr) (he : ¬ e.status = some 401) (sl : Client.LoginState)
    (err : Client.AxiosErr) (resp : Client.AuthResponse)
    (hr : resp.success = false) :
    Client.fetchDashboardData s (.error e) = s ∧
    (∀ s2 : Client.DashState,
      Client.dashShowsInlineError (Client.dashRender s2) = false) ∧
    (Client.handleSubmit sl (.error err)).storage = sl.storage ∧
    (Client.handleSubmit sl (.error err)).route = sl.route ∧
    Client.loginShowsInlineError (Client.handleSubmit sl (.error err)) = true ∧
    (Client.handleSubmit sl (.ok resp)).storage = sl.storage ∧
    (Client.handleSubmit sl (.ok resp)).route = sl.route ∧
    Client.loginShowsInlineError (Client.handleSubmit sl (.ok resp)) = true := by
  have hb : (e.status == some 401) = false := by simp [he]
  have herr : Client.jsOr (err.dataError.getD "")
      (Client.jsOr err.message "An error occurred") ≠ "" :=
    jsOr_ne_empty _ _ (jsOr_ne_empty _ _ (by decide))
  have hresp : Client.jsOr (resp.error.getD "") "Authentication failed" ≠ "" :=
    jsOr_ne_empty _ _ (by decide)
  refine ⟨by simp [Client.fetchDashboardData, hb], ?_, ?_, ?_, ?_, ?_, ?_, ?_⟩
  · intro s2
    unfold Client.dashRender
    split <;> rfl
  · simp [Client.handleSubmit]
  · simp [Client.handleSubmit]
  · simp [Client.loginShowsInlineError, Client.handleSubmit, herr]
  · simp [Client.handleSubmit, hr]
  · simp [Client.handleSubmit, hr]
  · simp [Client.loginShowsInlineError, Client.handleSubmit, hr, hresp]

/-- Witness for C7's amended statement at concrete inputs: a network
error (no response status) leaves the dashboard state untouched, and a
rejected login request shows an inline error. -/
theorem non401_failures_keep_session_wit :
    Client.fetchDashboardData Client.sampleDashState (.error ⟨none⟩)
      = Client.sampleDashState ∧
    Client.loginShowsInlineError
        (Client.handleSubmit ⟨[], .login, "", false⟩
          (.error ⟨none, "Network Error"⟩)) = true :=
  ⟨(non401_failures_keep_session Client.sampleDashState ⟨none⟩ (by decide)
      ⟨[], .login, "", false⟩ ⟨none, "Network Error"⟩
      ⟨false, "", "", some "Invalid credentials"⟩ rfl).1,
   (non401_failures_keep_session Client.sampleDashState ⟨none⟩ (by decide)
      ⟨[], .login, "", false⟩ ⟨none, "Network Error"⟩
      ⟨false, "", "", some "Invalid credentials"⟩ rfl).2.2.2.2.1⟩

/-- C8: mounting the dashboard with no stored token redirects to the
login page instead of issuing any protected request. -/
theorem dashboard_mount_without_token_redirects (st : Client.Storage)
    (h : Client.getItem st "token" = none) :
    Client.dashboardMount st = .redirectLogin := by
  simp [Client.dashboardMount, Client.jsFalsy, h]

/-- Witness for C8 at the empty storage. -/
theorem dashboard_mount_without_token_redirects_wit :
    Client.dashboardMount [] = .redirectLogin :=
  dashboard_mount_without_token_redirects [] rfl

/-- C9: the dashboard's 401 handler removes only the `token` key, leaving
`username` as it was, whereas explicit logout removes both keys. -/
theorem http401_removes_token_only_logout_removes_both (s : Client.DashState)
    (e : Client.FetchErr) (h : e.status = some 401) :
    Client.getItem (Client.fetchDashboardData s (.error e)).storage "token"
      = none ∧
    Client.getItem (Client.fetchDashboardData s (.error e)).storage "username"
      = Client.getItem s.storage "username" ∧
    Client.getItem (Client.handleLogout s).storage "token" = none ∧
    Client.getItem (Client.handleLogout s).storage "username" = none := by
  have hb : (e.status == some 401) = true := by simp [h]
  have hst : (Client.fetchDashboardData s (.error e)).storage
      = Client.removeItem s.storage "token" := by
    simp [Client.fetchDashboardData, hb]
  have hlo : (Client.handleLogout s).storage
      = Client.removeItem (Client.removeItem s.storage "token") "username" := by
    simp [Client.handleLogout]
  refine ⟨?_, ?_, ?_, ?_⟩
  · rw [hst]
    exact getItem_removeItem_same _ _
  · rw [hst]
    exact getItem_removeItem_ne _ _ _ (by decide)
  · rw [hlo, getItem_removeItem_ne _ _ _ (by decide)]
    exact getItem_removeItem_same _ _
  · rw [hlo]
    exact getItem_removeItem_same _ _

/-- Witness for C9 on a concrete logged-in session: after a 401 the
username survives while the token is gone; after logout both are gone. -/
theorem http401_removes_token_only_logout_removes_both_wit :
    Client.getItem
        (Client.fetchDashboardData Client.sampleDashState
          (.error ⟨some 401⟩)).storage "username" = some "alice" ∧
    Client.getItem (Client.handleLogout Client.sampleDashState).storage
        "username" = none :=
  ⟨Eq.trans
    ((http401_removes_token_only_logout_removes_both Client.sampleDashState
        ⟨some 401⟩ rfl).2.1)
    (by decide),
   (http401_removes_token_only_logout_removes_both Client.sampleDashState
      ⟨some 401⟩ rfl).2.2.2⟩

/-- C10: with no symbols selected the asset filter returns the full list
unchanged; with a non-empty selection it returns exactly the sublist, in
original order, of assets whose symbol is a member of the selection. -/
theorem filteredAssets_passthrough_or_member_filter (sel : List String)
    (xs : List Client.Asset) :
    (sel = [] → Client.filteredAssets sel xs = xs) ∧
    List.Sublist (Client.filteredAssets sel xs) xs ∧
    (sel ≠ [] → Client.filteredAssets sel xs
      = xs.filter (fun a => decide (a.asset_symbol ∈ sel))) := by
  refine ⟨?_, ?_, ?_⟩
  · rintro rfl
    simp [Client.filteredAssets]
  · unfold Client.filteredAssets
    split
    · exact List.filter_sublist xs
    · exact List.Sublist.refl xs
  · intro h
    have hl : sel.length > 0 := List.length_pos.mpr h
    simp only [Client.filteredAssets, if_pos hl]
    refine List.filter_congr ?_
    intro a _
    simp [List.elem_eq_mem]

/-- Witness for C10: a concrete two-asset list filtered by `["ETH"]`
keeps exactly the Ethereum entry. -/
theorem filteredAssets_passthrough_or_member_filter_wit :
    Client.filteredAssets ["ETH"] [Client.assetETH, Client.assetDOT]
      = List.filter (fun a => decide (a.asset_symbol ∈ (["ETH"] : List String)))
          [Client.assetETH, Client.assetDOT] ∧
    Client.filteredAssets [] [Client.assetETH, Client.assetDOT]
      = [Client.assetETH, Client.assetDOT] :=
  ⟨(filteredAssets_passthrough_or_member_filter ["ETH"]
      [Client.assetETH, Client.assetDOT]).2.2 (by simp),
   (filteredAssets_passthrough_or_member_filter []
      [Client.assetETH, Client.assetDOT]).1 rfl⟩
